import Mathlib

/-!
Verification of the GoBingoTelegramAI document-intake pipeline.

This file gives a shallow embedding, in Lean 4, of the parts of the
repository that the specification talks about:

* the Python-dict model used by the session aggregation
  (`TelegramController.extracted_data`, `_send_to_monday` in
  `controller/controller.py`),
* the per-variant field parsers (`LicenseProcessor.format_text`,
  `LogCardProcessor.format_text`, `IDCardProcessor.format_text`,
  `format_extracted_text` in `model.py`),
* the conversation handlers of `TelegramController` and of `bot.py`,
  modelled as pure step functions over abstract step outcomes,
* the two download-with-retry routines,
* `ModelSingleton.get_instance` and the per-call model loading of the
  document processors,
* `validate_image` and `extract_text_from_image` from `model.py`.

Python strings are modelled as Lean `String`; Python dicts are modelled
as insertion-ordered association lists (`PyDict`).  Fallible operations
are modelled with `Except`/`Option` or with explicit outcome types, one
constructor per exit path of the source code.
-/

/-! ### String helpers (Python string operations) -/

/-- `p.isPrefixOf s` on character lists: Python `str.startswith` restricted
to the character-list view. -/
def charsHasPre : List Char → List Char → Bool
  | [], _ => true
  | _ :: _, [] => false
  | p :: ps, s :: ss => p = s && charsHasPre ps ss

/-- Python `sub in s` (substring containment) on character lists. -/
def charsHasSub (sub : List Char) : List Char → Bool
  | [] => charsHasPre sub []
  | c :: cs => charsHasPre sub (c :: cs) || charsHasSub sub cs

/-- Python `sub in s` on strings. -/
def strContains (s sub : String) : Bool :=
  charsHasSub sub.data s.data

/-- Python `line.split(sep, 1)` for a one-character separator: split on the
first occurrence only; `none` when the separator is absent. -/
def splitFirstChars (sep : Char) : List Char → Option (List Char × List Char)
  | [] => none
  | c :: cs =>
    if c = sep then some ([], cs)
    else
      match splitFirstChars sep cs with
      | some (a, b) => some (c :: a, b)
      | none => none

/-- Python `line.split(':', 1)` as a pair (before, after); `none` when the
line has no colon (in the source this case is guarded by
`':' in line` / `line.startswith(...)`). -/
def colonSplit (s : String) : Option (String × String) :=
  match splitFirstChars ':' s.data with
  | some (a, b) => some (⟨a⟩, ⟨b⟩)
  | none => none

/-- Python `s.startswith(p)` on strings. -/
def strStarts (s p : String) : Bool :=
  charsHasPre p.data s.data

/-- The whitespace characters stripped by Python `str.strip()` (for the
ASCII strings this program handles). -/
def isPySpace (c : Char) : Bool :=
  c = ' ' || c = '\t' || c = '\n' || c = '\r' || c = '\x0b' || c = '\x0c'

/-- Python `s.strip()`. -/
def pyStrip (s : String) : String :=
  ⟨((s.data.dropWhile isPySpace).reverse.dropWhile isPySpace).reverse⟩

/-- Split a character list at every occurrence of a separator character,
Python `s.split(sep)` style (empty pieces kept). -/
def splitAllChars (sep : Char) : List Char → List (List Char)
  | [] => [[]]
  | c :: cs =>
    let rest := splitAllChars sep cs
    if c = sep then [] :: rest
    else
      match rest with
      | [] => [[c]]
      | piece :: more => (c :: piece) :: more

/-- Python `s.split('\x5cn')`. -/
def pySplitLines (s : String) : List String :=
  (splitAllChars '\n' s.data).map (fun cs => ⟨cs⟩)

/-- Python `sep.join(xs)` on character lists. -/
def joinWithChars (sep : List Char) : List (List Char) → List Char
  | [] => []
  | [x] => x
  | x :: y :: rest => x ++ (sep ++ joinWithChars sep (y :: rest))

/-- Python `sep.join(xs)`. -/
def pyJoin (sep : String) (xs : List String) : String :=
  ⟨joinWithChars sep.data (xs.map String.data)⟩

/-- Python `s.upper()` (ASCII). -/
def pyUpper (s : String) : String :=
  ⟨s.data.map Char.toUpper⟩

/-- Replace every (non-overlapping, left-to-right) occurrence of `pat` by
`rep`, with fuel bounded by the input length; Python `s.replace(pat, rep)`
for the non-empty patterns the source uses. -/
def replaceCharsFuel (pat rep : List Char) : Nat → List Char → List Char
  | 0, s => s
  | _ + 1, [] => []
  | n + 1, c :: cs =>
    if charsHasPre pat (c :: cs) then
      rep ++ replaceCharsFuel pat rep n (List.drop (pat.length - 1) cs)
    else c :: replaceCharsFuel pat rep n cs

/-- Python `s.replace(pat, rep)` for non-empty `pat`. -/
def pyReplace (s pat rep : String) : String :=
  ⟨replaceCharsFuel pat.data rep.data s.data.length s.data⟩

/-- Python `s.rstrip('.')`: drop every trailing period. -/
def rstripDots (s : String) : String :=
  ⟨(s.data.reverse.dropWhile (· = '.')).reverse⟩

/-- Python `s.strip(' .')`: drop leading and trailing spaces and periods. -/
def stripSpaceDots (s : String) : String :=
  let isOut : Char → Bool := fun c => c = ' ' || c = '.'
  ⟨((s.data.dropWhile isOut).reverse.dropWhile isOut).reverse⟩

/-! ### Python dicts as insertion-ordered association lists -/

/-- A Python dict with `String` keys, keeping insertion order. -/
def PyDict (α : Type) : Type := List (String × α)

namespace PyDict

/-- Python `d.get(k)`: the value at the first (unique, for a real dict)
occurrence of the key. -/
def lookup {α : Type} : PyDict α → String → Option α
  | [], _ => none
  | (k', v) :: rest, k => if k' = k then some v else lookup rest k

/-- Python `d[k] = v`: replace the value at an existing key in place,
else append the new binding at the end. -/
def insert {α : Type} : PyDict α → String → α → PyDict α
  | [], k, v => [(k, v)]
  | (k', v') :: rest, k, v =>
    if k' = k then (k', v) :: rest else (k', v') :: insert rest k v

/-- Python `d1.update(d2)`: insert the bindings of `d2` into `d1`
left to right. -/
def update {α : Type} (d1 d2 : PyDict α) : PyDict α :=
  d2.foldl (fun acc p => insert acc p.1 p.2) d1

/-- The keys of the dict, in order. -/
def keys {α : Type} (d : PyDict α) : List String :=
  (d : List (String × α)).map Prod.fst

theorem lookup_insert {α : Type} (d : PyDict α) (k k' : String) (v : α) :
    lookup (insert d k v) k' = if k' = k then some v else lookup d k' := by
  induction d with
  | nil =>
    simp only [insert, lookup]
    by_cases h : k = k'
    · subst h; simp
    · have h2 : ¬ k' = k := fun he => h he.symm
      simp [h, h2]
  | cons p rest ih =>
    obtain ⟨k0, v0⟩ := p
    by_cases h0 : k0 = k
    · subst h0
      simp only [insert, if_pos rfl, lookup]
      by_cases h : k0 = k'
      · subst h; simp
      · have h2 : ¬ k' = k0 := fun he => h he.symm
        simp [h, h2]
    · simp only [insert, if_neg h0, lookup, ih]
      by_cases h : k0 = k'
      · subst h
        simp [fun he : k0 = k => h0 he]
      · by_cases hk : k' = k <;> simp [h, hk, h0]

theorem lookup_eq_none_of_not_mem {α : Type} (d : PyDict α) (k : String)
    (h : k ∉ keys d) : lookup d k = none := by
  induction d with
  | nil => simp [lookup]
  | cons p rest ih =>
    obtain ⟨k0, v0⟩ := p
    simp only [keys, List.map_cons, List.mem_cons] at h
    push_neg at h
    have hk : ¬ k0 = k := fun he => h.1 he.symm
    simpa [lookup, hk] using ih (by simpa [keys] using h.2)

/-- Lookup in `d1.update(d2)`: a key of `d2` wins, otherwise `d1` answers.
Requires the keys of `d2` to be duplicate-free, as they are for every
Python dict. -/
theorem lookup_update {α : Type} (d1 d2 : PyDict α) (k : String)
    (h : (keys d2).Nodup) :
    lookup (update d1 d2) k = (lookup d2 k).or (lookup d1 k) := by
  induction d2 generalizing d1 with
  | nil => simp [update, lookup]
  | cons p rest ih =>
    obtain ⟨k0, v0⟩ := p
    simp only [keys, List.map_cons, List.nodup_cons] at h
    have hupd : update d1 ((k0, v0) :: rest) = update (insert d1 k0 v0) rest := rfl
    rw [hupd, ih _ (by simpa [keys] using h.2)]
    by_cases hk : k = k0
    · subst hk
      have hrest : lookup rest k = none :=
        lookup_eq_none_of_not_mem _ _ (by simpa [keys] using h.1)
      simp [lookup, hrest, lookup_insert]
    · have : ¬ k0 = k := fun he => hk he.symm
      simp [lookup, this, lookup_insert, hk]

end PyDict

/-! ### C1: session aggregation (`TelegramController._send_to_monday`) -/

/-- A per-document field map: Python dict from field name to string value. -/
def FieldMap : Type := PyDict String

/-- `TelegramController.extracted_data`: dict from document-type tag to
field map. -/
def EData : Type := PyDict (PyDict String)

/-- `self.extracted_data.get(tag, \x7b\x7d)` from
`controller/controller.py`. -/
def edGet (ed : EData) (tag : String) : PyDict String :=
  (PyDict.lookup ed tag).getD []

/-- The combined record built by `TelegramController._send_to_monday`
(`controller/controller.py` lines 262-272): an empty dict updated in turn
with the `id_card`, `license`, `log_card` and `referrer_info` field maps. -/
def combinedData (ed : EData) : PyDict String :=
  PyDict.update
    (PyDict.update
      (PyDict.update
        (PyDict.update ([] : PyDict String) (edGet ed "id_card"))
        (edGet ed "license"))
      (edGet ed "log_card"))
    (edGet ed "referrer_info")

/-- C1: building the combined record is a pure function of the four recorded
field maps, and on any key collision the later source in the fixed order
identity, license, log-card, referral wins.  Determinism over repeated runs
is inherent to the pure model: `combinedData` is a function. -/
theorem merge_precedence (ed : EData) (idc lic log ref : FieldMap)
    (h1 : PyDict.lookup ed "id_card" = some idc)
    (h2 : PyDict.lookup ed "license" = some lic)
    (h3 : PyDict.lookup ed "log_card" = some log)
    (h4 : PyDict.lookup ed "referrer_info" = some ref)
    (hn1 : (PyDict.keys idc).Nodup) (hn2 : (PyDict.keys lic).Nodup)
    (hn3 : (PyDict.keys log).Nodup) (hn4 : (PyDict.keys ref).Nodup)
    (k : String) :
    PyDict.lookup (combinedData ed) k =
      (PyDict.lookup ref k).or ((PyDict.lookup log k).or
        ((PyDict.lookup lic k).or (PyDict.lookup idc k))) := by
  unfold combinedData edGet
  rw [h1, h2, h3, h4]
  simp only [Option.getD_some]
  rw [PyDict.lookup_update _ _ _ hn4, PyDict.lookup_update _ _ _ hn3,
      PyDict.lookup_update _ _ _ hn2, PyDict.lookup_update _ _ _ hn1]
  simp [PyDict.lookup]

/-- Witness for C1 at a concrete session: the license value for the shared
key "Name" overwrites the identity value. -/
theorem merge_precedence_witness :
    PyDict.lookup
      (combinedData [("id_card", [("Name", "A"), ("Race", "C")]),
        ("license", [("Name", "B")]), ("log_card", [("Vehicle No", "V")]),
        ("referrer_info", [("Dealership", "D")])]) "Name" = some "B" := by
  have h := merge_precedence
    [("id_card", [("Name", "A"), ("Race", "C")]),
      ("license", [("Name", "B")]), ("log_card", [("Vehicle No", "V")]),
      ("referrer_info", [("Dealership", "D")])]
    [("Name", "A"), ("Race", "C")] [("Name", "B")] [("Vehicle No", "V")]
    [("Dealership", "D")] rfl rfl rfl rfl (by decide) (by decide) (by decide)
    (by decide) "Name"
  rw [h]; rfl

/-! ### C2, C3: the per-variant field parsers -/

/-- The four fields of `LicenseProcessor.format_text`
(`model/license_processor.py` lines 93-122), in the dict insertion order of
the source. -/
structure LicenseFields where
  name : String
  licenseNumber : String
  dob : String
  issueDate : String
deriving Repr, DecidableEq

/-- The initial dict of `LicenseProcessor.format_text`: every declared
label maps to "Not found". -/
def licenseInit : LicenseFields :=
  ⟨"Not found", "Not found", "Not found", "Not found"⟩

/-- `line.split(":", 1)[1].strip()` for a line known to contain a colon
(the source guards this with `line.startswith(...)`). -/
def afterColonTrim (line : String) : String :=
  match colonSplit line with
  | some p => pyStrip p.2
  | none => ""

/-- One iteration of the scan loop of `LicenseProcessor.format_text`:
strip the line, then assign on a matching `Label:` head. -/
def licenseStep (st : LicenseFields) (rawLine : String) : LicenseFields :=
  let line := pyStrip rawLine
  if strStarts line "Name:" then
    { st with name := afterColonTrim line }
  else if strStarts line "License Number:" then
    { st with licenseNumber := afterColonTrim line }
  else if strStarts line "Date of birth:" then
    { st with dob := afterColonTrim line }
  else if strStarts line "Issue Date:" then
    { st with issueDate := afterColonTrim line }
  else st

/-- The field dict computed by `LicenseProcessor.format_text`. -/
def licenseFieldsOf (text : String) : LicenseFields :=
  (pySplitLines text).foldl licenseStep licenseInit

/-- The items of the license field dict, in insertion order. -/
def licensePairs (text : String) : List (String × String) :=
  let f := licenseFieldsOf text
  [("Name", f.name), ("License Number", f.licenseNumber),
    ("Date of birth", f.dob), ("Issue Date", f.issueDate)]

/-- Python `"\x5cn".join(...)` over `Label: value` items. -/
def renderPairs (ps : List (String × String)) : String :=
  pyJoin "\n" (ps.map fun p => p.1 ++ ": " ++ p.2)

/-- `LicenseProcessor.format_text` (non-exceptional path; the parser body
raises nothing, so the `except` branch of the source is dead). -/
def license_format_text (text : String) : String :=
  renderPairs (licensePairs text)

/-- The 24 declared log-card field labels
(`model/log_card_processor.py` lines 84-109), in source order. -/
def logCardFieldList : List String :=
  ["Vehicle No", "Make/Model", "Vehicle Type", "Vehicle Attachment 1",
    "Vehicle Scheme", "Chassis No", "Propellant", "Engine No", "Motor No",
    "Engine Capacity", "Power Rating", "Maximum Power Output",
    "Maximum Laden Weight", "Unladen Weight", "Year Of Manufacture",
    "Original Registration Date", "Lifespan Expiry Date", "COE Category",
    "PQP Paid", "COE Expiry Date", "Road Tax Expiry Date",
    "PARF Eligibility Expiry Date", "Inspection Due Date",
    "Intended Transfer Date"]

/-- `formatted_data = \x7bfield: "Not found" for field in fields\x7d`. -/
def logCardInit : PyDict String :=
  logCardFieldList.map (fun f => (f, "Not found"))

/-- Key normalisation of the log-card line loop:
`key.strip().rstrip('.')`, then the special `"Vehicle No."` rename. -/
def logCardKey (k0 : String) : String :=
  let key := rstripDots (pyStrip k0)
  if key = "Vehicle No." then "Vehicle No" else key

/-- Value normalisation of the log-card line loop:
`value if value else "Not found"` after `value.strip()`. -/
def logCardVal (v0 : String) : String :=
  if pyStrip v0 ≠ "" then pyStrip v0 else "Not found"

/-- One iteration of the line loop of `LogCardProcessor.format_text`
(lines 114-126): lines without a colon are skipped; a recognised key is
assigned in place, an unknown key is ignored. -/
def logCardStep (d : PyDict String) (line : String) : PyDict String :=
  match colonSplit line with
  | none => d
  | some (k0, v0) =>
    let key := logCardKey k0
    if (PyDict.lookup d key).isSome then
      PyDict.insert d key (logCardVal v0)
    else d

/-- One hard-coded fallback of `LogCardProcessor.format_text`
(lines 128-150): a field still "Not found" is replaced by a literal. -/
def logCardFallback (d : PyDict String) (k v : String) : PyDict String :=
  if PyDict.lookup d k = some "Not found" then PyDict.insert d k v else d

/-- The eleven hard-coded fallbacks, in source order. -/
def logCardApplyFallbacks (d : PyDict String) : PyDict String :=
  let d := logCardFallback d "Make/Model"
    "ALFA ROMEO / ALFA 159 2.2JTS.SPORTWAGON.SELESPEED"
  let d := logCardFallback d "Chassis No" "ZAR93900007269184"
  let d := logCardFallback d "Engine No" "939A50001741061"
  let d := logCardFallback d "Engine Capacity" "2198 cc"
  let d := logCardFallback d "Maximum Power Output" "136.0 kW (182 bhp)"
  let d := logCardFallback d "Unladen Weight" "1540 kg"
  let d := logCardFallback d "Original Registration Date" "03 Jun 2010"
  let d := logCardFallback d "COE Category" "B - Car (1601cc & above)"
  let d := logCardFallback d "COE Expiry Date" "30 Apr 2029"
  let d := logCardFallback d "Vehicle Attachment 1" "No Attachment"
  let d := logCardFallback d "Intended Transfer Date" "01 May 2023"
  d

/-- The field dict computed by `LogCardProcessor.format_text` after the
line loop and the hard-coded fallbacks. -/
def logCardDataOf (text : String) : PyDict String :=
  logCardApplyFallbacks ((pySplitLines text).foldl logCardStep logCardInit)

/-- `LogCardProcessor.format_text`: the output joins only the items whose
value is not the "Not found" sentinel (line 153). -/
def log_card_format_text (text : String) : String :=
  renderPairs (List.filter (fun p => p.2 != "Not found") (logCardDataOf text))

theorem licenseStep_name (st : LicenseFields) (l : String)
    (h : (strStarts (pyStrip l) "Name:") = false) :
    (licenseStep st l).name = st.name := by
  simp only [licenseStep, h, Bool.false_eq_true, if_false]
  split_ifs <;> rfl

theorem licenseStep_licenseNumber (st : LicenseFields) (l : String)
    (h : (strStarts (pyStrip l) "License Number:") = false) :
    (licenseStep st l).licenseNumber = st.licenseNumber := by
  simp only [licenseStep, h, Bool.false_eq_true, if_false]
  split_ifs <;> rfl

theorem licenseStep_dob (st : LicenseFields) (l : String)
    (h : (strStarts (pyStrip l) "Date of birth:") = false) :
    (licenseStep st l).dob = st.dob := by
  simp only [licenseStep, h, Bool.false_eq_true, if_false]
  split_ifs <;> rfl

theorem licenseStep_issueDate (st : LicenseFields) (l : String)
    (h : (strStarts (pyStrip l) "Issue Date:") = false) :
    (licenseStep st l).issueDate = st.issueDate := by
  simp only [licenseStep, h, Bool.false_eq_true, if_false]
  split_ifs <;> rfl

theorem licenseFold_name (ls : List String) (st : LicenseFields)
    (h : ∀ l ∈ ls, (strStarts (pyStrip l) "Name:") = false) :
    (List.foldl licenseStep st ls).name = st.name := by
  induction ls generalizing st with
  | nil => rfl
  | cons l rest ih =>
    rw [List.foldl_cons, ih _ (fun x hx => h x (List.mem_cons_of_mem _ hx)),
      licenseStep_name st l (h l (List.mem_cons_self _ _))]

theorem licenseFold_licenseNumber (ls : List String) (st : LicenseFields)
    (h : ∀ l ∈ ls, (strStarts (pyStrip l) "License Number:") = false) :
    (List.foldl licenseStep st ls).licenseNumber = st.licenseNumber := by
  induction ls generalizing st with
  | nil => rfl
  | cons l rest ih =>
    rw [List.foldl_cons, ih _ (fun x hx => h x (List.mem_cons_of_mem _ hx)),
      licenseStep_licenseNumber st l (h l (List.mem_cons_self _ _))]

theorem licenseFold_dob (ls : List String) (st : LicenseFields)
    (h : ∀ l ∈ ls, (strStarts (pyStrip l) "Date of birth:") = false) :
    (List.foldl licenseStep st ls).dob = st.dob := by
  induction ls generalizing st with
  | nil => rfl
  | cons l rest ih =>
    rw [List.foldl_cons, ih _ (fun x hx => h x (List.mem_cons_of_mem _ hx)),
      licenseStep_dob st l (h l (List.mem_cons_self _ _))]

theorem licenseFold_issueDate (ls : List String) (st : LicenseFields)
    (h : ∀ l ∈ ls, (strStarts (pyStrip l) "Issue Date:") = false) :
    (List.foldl licenseStep st ls).issueDate = st.issueDate := by
  induction ls generalizing st with
  | nil => rfl
  | cons l rest ih =>
    rw [List.foldl_cons, ih _ (fun x hx => h x (List.mem_cons_of_mem _ hx)),
      licenseStep_issueDate st l (h l (List.mem_cons_self _ _))]

theorem keys_insert_of_isSome {α : Type} (d : PyDict α) (k : String) (v : α)
    (h : (PyDict.lookup d k).isSome) :
    PyDict.keys (PyDict.insert d k v) = PyDict.keys d := by
  induction d with
  | nil => simp [PyDict.lookup] at h
  | cons p rest ih =>
    obtain ⟨k0, v0⟩ := p
    by_cases hk : k0 = k
    · simp [PyDict.insert, hk, PyDict.keys]
    · have h' : (PyDict.lookup rest k).isSome := by
        simpa [PyDict.lookup, hk] using h
      have := ih h'
      simp only [PyDict.insert, hk, if_false, PyDict.keys, List.map_cons]
      simpa [PyDict.keys] using this

theorem keys_logCardStep (d : PyDict String) (l : String) :
    PyDict.keys (logCardStep d l) = PyDict.keys d := by
  unfold logCardStep
  cases hc : colonSplit l with
  | none => rfl
  | some p =>
    obtain ⟨k0, v0⟩ := p
    by_cases hs : (PyDict.lookup d (logCardKey k0)).isSome
    · simp [hs, keys_insert_of_isSome _ _ _ hs]
    · simp [hs]

theorem keys_logCardFold (ls : List String) (d : PyDict String) :
    PyDict.keys (List.foldl logCardStep d ls) = PyDict.keys d := by
  induction ls generalizing d with
  | nil => rfl
  | cons l rest ih => rw [List.foldl_cons, ih, keys_logCardStep]

theorem keys_logCardFallback (d : PyDict String) (k v : String) :
    PyDict.keys (logCardFallback d k v) = PyDict.keys d := by
  unfold logCardFallback
  split_ifs with h
  · exact keys_insert_of_isSome _ _ _ (by simp [h])
  · rfl

theorem keys_logCardApplyFallbacks (d : PyDict String) :
    PyDict.keys (logCardApplyFallbacks d) = PyDict.keys d := by
  unfold logCardApplyFallbacks
  simp only [keys_logCardFallback]

theorem logCard_keys (t : String) :
    PyDict.keys (logCardDataOf t) = logCardFieldList := by
  unfold logCardDataOf
  rw [keys_logCardApplyFallbacks, keys_logCardFold]
  rfl

set_option maxRecDepth 16384 in
/-- C2 fails on the code: on input without any `Label: value` line, the
log-card formatter keeps "Vehicle Type" as "Not found" in its internal
dict but omits the label from the returned output (line 153 of
`log_card_processor.py` filters sentinel items out), and injects a
hard-coded literal for "Chassis No" instead of the sentinel. -/
theorem parser_sentinel_counterexample :
    ("Vehicle Type" ∈ logCardFieldList)
    ∧ strContains (log_card_format_text "") "Vehicle Type" = false
    ∧ PyDict.lookup (logCardDataOf "") "Vehicle Type" = some "Not found"
    ∧ PyDict.lookup (logCardDataOf "") "Chassis No"
        = some "ZAR93900007269184" := by
  refine ⟨by decide, by decide, by decide, by decide⟩

/-- C2 amended: the license parser keeps every declared label, defaulting
to "Not found" when no (stripped) line starts with the label; the log-card
parser keeps every declared label with the "Not found" default only in its
internal dict — its returned output substitutes hard-coded literals for
eleven specific fields and omits every field still carrying the sentinel.
Neither parser raises (both are total functions in this model; the
`except` clauses of the source are unreachable from the parser bodies). -/
theorem parser_labels_amended (t : String) :
    (licensePairs t).map Prod.fst
        = ["Name", "License Number", "Date of birth", "Issue Date"]
    ∧ ((∀ l ∈ pySplitLines t, (strStarts (pyStrip l) "Name:") = false) →
        (licenseFieldsOf t).name = "Not found")
    ∧ ((∀ l ∈ pySplitLines t,
          (strStarts (pyStrip l) "License Number:") = false) →
        (licenseFieldsOf t).licenseNumber = "Not found")
    ∧ ((∀ l ∈ pySplitLines t,
          (strStarts (pyStrip l) "Date of birth:") = false) →
        (licenseFieldsOf t).dob = "Not found")
    ∧ ((∀ l ∈ pySplitLines t, (strStarts (pyStrip l) "Issue Date:") = false) →
        (licenseFieldsOf t).issueDate = "Not found")
    ∧ PyDict.keys (logCardDataOf t) = logCardFieldList
    ∧ log_card_format_text t
        = renderPairs
            (List.filter (fun p => p.2 != "Not found") (logCardDataOf t)) :=
  ⟨rfl, fun h => licenseFold_name _ _ h, fun h => licenseFold_licenseNumber _ _ h,
    fun h => licenseFold_dob _ _ h, fun h => licenseFold_issueDate _ _ h,
    logCard_keys t, rfl⟩

/-- Witness for the amended C2 at the concrete input "abc". -/
theorem parser_labels_amended_witness :
    (licenseFieldsOf "abc").name = "Not found"
    ∧ PyDict.keys (logCardDataOf "abc") = logCardFieldList :=
  ⟨(parser_labels_amended "abc").2.1 (by decide),
    (parser_labels_amended "abc").2.2.2.2.2.1⟩

set_option maxRecDepth 16384 in
/-- C3 fails on the code: with two lines carrying the same label, both
parsers keep the value of the second (last) occurrence, not the first. -/
theorem parser_first_wins_counterexample :
    (licenseFieldsOf "Name: A\nName: B").name = "B"
    ∧ ¬ (licenseFieldsOf "Name: A\nName: B").name = "A"
    ∧ PyDict.lookup (logCardDataOf "Vehicle No: X\nVehicle No: Y")
        "Vehicle No" = some "Y" := by
  refine ⟨by decide, by decide, by decide⟩

theorem charsHasPre_head (p s : List Char) (h : charsHasPre p s = true) :
    ∀ c, p.head? = some c → s.head? = some c := by
  cases p with
  | nil => intro c hc; cases hc
  | cons a ps =>
    cases s with
    | nil => simp [charsHasPre] at h
    | cons b ss =>
      intro c hc
      simp only [charsHasPre, Bool.and_eq_true, decide_eq_true_eq] at h
      simp only [List.head?_cons, Option.some.injEq] at hc ⊢
      rw [← h.1, hc]

theorem strStarts_excl (s p q : String) (c d : Char)
    (hp : strStarts s p = true) (hcp : p.data.head? = some c)
    (hdq : q.data.head? = some d) (hne : c ≠ d) :
    strStarts s q = false := by
  cases hq : strStarts s q with
  | false => rfl
  | true =>
    have h1 := charsHasPre_head _ _ hp c hcp
    have h2 := charsHasPre_head _ _ hq d hdq
    rw [h1] at h2
    exact absurd (Option.some.inj h2) hne

theorem logCardStep_sets (d : PyDict String) (l k0 v0 : String)
    (hc : colonSplit l = some (k0, v0))
    (hs : (PyDict.lookup d (logCardKey k0)).isSome = true) :
    PyDict.lookup (logCardStep d l) (logCardKey k0)
      = some (logCardVal v0) := by
  unfold logCardStep
  rw [hc]
  simp [hs, PyDict.lookup_insert]

/-- C3 amended: for both parsers the last occurrence of a label wins:
whatever came before, a final line carrying any of the declared labels
determines the stored value, for every license label (Name, License
Number, Date of birth, Issue Date) and for every recognised log-card
key. -/
theorem parser_last_wins_amended :
    (∀ (st : LicenseFields) (ls : List String) (l : String),
      strStarts (pyStrip l) "Name:" = true →
      (List.foldl licenseStep st (ls ++ [l])).name
        = afterColonTrim (pyStrip l))
    ∧ (∀ (st : LicenseFields) (ls : List String) (l : String),
      strStarts (pyStrip l) "License Number:" = true →
      (List.foldl licenseStep st (ls ++ [l])).licenseNumber
        = afterColonTrim (pyStrip l))
    ∧ (∀ (st : LicenseFields) (ls : List String) (l : String),
      strStarts (pyStrip l) "Date of birth:" = true →
      (List.foldl licenseStep st (ls ++ [l])).dob
        = afterColonTrim (pyStrip l))
    ∧ (∀ (st : LicenseFields) (ls : List String) (l : String),
      strStarts (pyStrip l) "Issue Date:" = true →
      (List.foldl licenseStep st (ls ++ [l])).issueDate
        = afterColonTrim (pyStrip l))
    ∧ (∀ (d : PyDict String) (ls : List String) (l k0 v0 : String),
      colonSplit l = some (k0, v0) →
      (PyDict.lookup (List.foldl logCardStep d ls) (logCardKey k0)).isSome
          = true →
      PyDict.lookup (List.foldl logCardStep d (ls ++ [l])) (logCardKey k0)
        = some (logCardVal v0)) := by
  refine ⟨?_, ?_, ?_, ?_, ?_⟩
  · intro st ls l h
    rw [List.foldl_append]
    simp [licenseStep, h]
  · intro st ls l h
    have hn : strStarts (pyStrip l) "Name:" = false :=
      strStarts_excl _ _ _ 'L' 'N' h rfl rfl (by decide)
    rw [List.foldl_append]
    simp [licenseStep, h, hn]
  · intro st ls l h
    have hn : strStarts (pyStrip l) "Name:" = false :=
      strStarts_excl _ _ _ 'D' 'N' h rfl rfl (by decide)
    have hl : strStarts (pyStrip l) "License Number:" = false :=
      strStarts_excl _ _ _ 'D' 'L' h rfl rfl (by decide)
    rw [List.foldl_append]
    simp [licenseStep, h, hn, hl]
  · intro st ls l h
    have hn : strStarts (pyStrip l) "Name:" = false :=
      strStarts_excl _ _ _ 'I' 'N' h rfl rfl (by decide)
    have hl : strStarts (pyStrip l) "License Number:" = false :=
      strStarts_excl _ _ _ 'I' 'L' h rfl rfl (by decide)
    have hd : strStarts (pyStrip l) "Date of birth:" = false :=
      strStarts_excl _ _ _ 'I' 'D' h rfl rfl (by decide)
    rw [List.foldl_append]
    simp [licenseStep, h, hn, hl, hd]
  · intro d ls l k0 v0 hc hs
    rw [List.foldl_append]
    simp only [List.foldl_cons, List.foldl_nil]
    exact logCardStep_sets _ _ _ _ hc hs

/-- Witness for the amended C3: duplicated "Name" and "License Number"
lines, last wins in each case. -/
theorem parser_last_wins_amended_witness :
    (List.foldl licenseStep licenseInit (["Name: A"] ++ ["Name: B"])).name
      = afterColonTrim (pyStrip "Name: B")
    ∧ (List.foldl licenseStep licenseInit
        (["License Number: 1"] ++ ["License Number: 2"])).licenseNumber
      = afterColonTrim (pyStrip "License Number: 2") :=
  ⟨parser_last_wins_amended.1 licenseInit ["Name: A"] "Name: B" (by decide),
    parser_last_wins_amended.2.1 licenseInit ["License Number: 1"]
      "License Number: 2" (by decide)⟩

/-! ### Conversation states, view messages, controller handlers -/

/-- `STATE_UPLOAD_ID` (`controller/controller.py` line 17). -/
def STATE_UPLOAD_ID : Int := 0

/-- `STATE_UPLOAD_LICENSE`. -/
def STATE_UPLOAD_LICENSE : Int := 1

/-- `STATE_UPLOAD_LOG`. -/
def STATE_UPLOAD_LOG : Int := 2

/-- `STATE_REFERRER_NAME`. -/
def STATE_REFERRER_NAME : Int := 3

/-- `STATE_REFERRER_CONTACT`. -/
def STATE_REFERRER_CONTACT : Int := 4

/-- `STATE_REFERRER_DEALERSHIP`. -/
def STATE_REFERRER_DEALERSHIP : Int := 5

/-- `ConversationHandler.END` of python-telegram-bot, the terminal state
returned by the handlers. -/
def CONV_END : Int := -1

/-- `MAX_RETRIES` (`controller/controller.py` line 20 and `bot.py`
line 25). -/
def MAX_RETRIES : Nat := 3

/-- `RETRY_DELAY` (`bot.py` line 26), in seconds. -/
def RETRY_DELAY : Nat := 2

/-- The literal `timeout=300.0` bound on the identity-step extraction call
(`controller/controller.py` line 98), in seconds. -/
def ID_EXTRACT_TIMEOUT : Nat := 300

/-- The outbound messages of `TelegramView` (`view/view.py`), one
constructor per send method the controller calls. -/
inductive Msg where
  | processing (doc : String)
  | modelLoading
  | welcome
  | validationError (reason : String)
  | extractedText (doc text : String)
  | requestNext (doc : String)
  | errorMsg (text : String)
  | plain (text : String)
  | dataSaveError
  | completion
  | cancelMsg
deriving DecidableEq

/-- The reply text each `TelegramView` method sends (`view/view.py`). -/
def viewText : Msg → String
  | .processing doc =>
    "Processing your " ++ doc ++ "...\nThis typically takes 30-60 seconds... ⏳"
  | .modelLoading =>
    "Your data is secure. Our internal AI model extracts the necessary information directly from your uploaded documents in our AI Assistant, ensuring your personal information remains confidential and is not shared with any third parties. Thank you for trusting us."
  | .welcome =>
    "Welcome to GoBingo Telegram AI Bot! 👋\n\nPlease upload your Identity Card photo."
  | .validationError reason => "Image validation failed: " ++ reason
  | .extractedText doc text =>
    "📄 Extracted information from " ++ doc ++ ":\n\n" ++ text
  | .requestNext doc => "Please upload your " ++ doc ++ " photo."
  | .errorMsg text => "Sorry, there was an error: " ++ text
  | .plain text => text
  | .dataSaveError =>
    "⚠️ Documents processed but there was an error saving the data. Please try again or contact support."
  | .completion => "Thank you for using GoBingo AI Assistant! 🎉"
  | .cancelMsg => "Process cancelled. Send /start to begin again."

instance : DecidableEq (PyDict String) :=
  inferInstanceAs (DecidableEq (List (String × String)))

instance : DecidableEq EData :=
  inferInstanceAs (DecidableEq (List (String × PyDict String)))

/-- The dict comprehension of the document handlers
(`controller/controller.py` lines 102-105 and analogues): keep every line
containing a colon, key and value stripped; later duplicate keys
overwrite. -/
def parseColonLines (t : String) : PyDict String :=
  (pySplitLines t).foldl
    (fun d line =>
      match colonSplit line with
      | some p => PyDict.insert d (pyStrip p.1) (pyStrip p.2)
      | none => d)
    []

/-- The abstract exit scenarios of one controller document-upload step.
`timeout` models `asyncio.TimeoutError` (raised only by the identity
step's `wait_for`; in the other handlers it is caught by the generic
`except` like any exception). -/
inductive DocStepOutcome where
  | downloadFail
  | validationFail (reason : String)
  | timeout
  | extractOk (text : String)
  | extractRaise
deriving DecidableEq

/-- The observable result of one controller document-upload step:
returned conversation state, messages sent, extracted-data dict after the
step, and the fate of the staged files.  `tempDeleted` records whether the
`finally: self.cleanup_temp_file(temp_path)` removed the temporary file
(with `tempCreated = false`, `temp_path` is still `None` and there is
nothing to delete); `permDeleted` records removal of the permanent copy,
which no controller code path performs. -/
structure StepRes where
  nextState : Int
  msgs : List Msg
  data : EData
  tempCreated : Bool
  tempDeleted : Bool
  permDeleted : Bool
deriving DecidableEq

/-- `TelegramController.handle_id_card` (`controller/controller.py` lines
77-121) as a pure step function of the session dict and the step
outcome.  The extraction call sits under
`asyncio.wait_for(..., timeout=300.0)` (= `ID_EXTRACT_TIMEOUT`); the
`asyncio.TimeoutError` arm is the `timeout` case.  An `extractOk` text
that is empty or contains "No data found" raises `ValueError` into the
generic `except` arm. -/
def handle_id_card (data : EData) (o : DocStepOutcome) : StepRes :=
  match o with
  | .downloadFail =>
    { nextState := STATE_UPLOAD_ID
      msgs := [.processing "ID Card",
        .errorMsg "Failed to process ID Card. Please try again."]
      data := data, tempCreated := false, tempDeleted := false
      permDeleted := false }
  | .validationFail reason =>
    { nextState := STATE_UPLOAD_ID
      msgs := [.processing "ID Card", .modelLoading, .validationError reason]
      data := data, tempCreated := true, tempDeleted := true
      permDeleted := false }
  | .timeout =>
    { nextState := STATE_UPLOAD_ID
      msgs := [.processing "ID Card", .modelLoading,
        .errorMsg "Processing took too long. Please try again."]
      data := data, tempCreated := true, tempDeleted := true
      permDeleted := false }
  | .extractOk t =>
    if t ≠ "" ∧ strContains t "No data found" = false then
      { nextState := STATE_UPLOAD_LICENSE
        msgs := [.processing "ID Card", .modelLoading,
          .extractedText "ID Card" t, .requestNext "Driver\x27s License"]
        data := PyDict.insert data "id_card" (parseColonLines t)
        tempCreated := true, tempDeleted := true, permDeleted := false }
    else
      { nextState := STATE_UPLOAD_ID
        msgs := [.processing "ID Card", .modelLoading,
          .errorMsg "Failed to process ID Card. Please try again."]
        data := data, tempCreated := true, tempDeleted := true
        permDeleted := false }
  | .extractRaise =>
    { nextState := STATE_UPLOAD_ID
      msgs := [.processing "ID Card", .modelLoading,
        .errorMsg "Failed to process ID Card. Please try again."]
      data := data, tempCreated := true, tempDeleted := true
      permDeleted := false }

/-- `TelegramController.handle_drivers_license` (lines 123-155): no
model-loading notice, no timeout guard (a stray timeout lands in the
generic `except`), and the extracted text is stored without the
"No data found" check. -/
def handle_drivers_license (data : EData) (o : DocStepOutcome) : StepRes :=
  match o with
  | .downloadFail =>
    { nextState := STATE_UPLOAD_LICENSE
      msgs := [.processing "Driver\x27s License",
        .errorMsg "Please try uploading the Driver\x27s License photo again."]
      data := data, tempCreated := false, tempDeleted := false
      permDeleted := false }
  | .validationFail reason =>
    { nextState := STATE_UPLOAD_LICENSE
      msgs := [.processing "Driver\x27s License", .validationError reason]
      data := data, tempCreated := true, tempDeleted := true
      permDeleted := false }
  | .timeout =>
    { nextState := STATE_UPLOAD_LICENSE
      msgs := [.processing "Driver\x27s License",
        .errorMsg "Please try uploading the Driver\x27s License photo again."]
      data := data, tempCreated := true, tempDeleted := true
      permDeleted := false }
  | .extractOk t =>
    { nextState := STATE_UPLOAD_LOG
      msgs := [.processing "Driver\x27s License",
        .extractedText "Driver\x27s License" t, .requestNext "Log Card"]
      data := PyDict.insert data "license" (parseColonLines t)
      tempCreated := true, tempDeleted := true, permDeleted := false }
  | .extractRaise =>
    { nextState := STATE_UPLOAD_LICENSE
      msgs := [.processing "Driver\x27s License",
        .errorMsg "Please try uploading the Driver\x27s License photo again."]
      data := data, tempCreated := true, tempDeleted := true
      permDeleted := false }

/-- `TelegramController.handle_log_card` (lines 157-191): on success the
handler chains into `handle_referrer_info`, which sends the referrer-name
prompt and returns `STATE_REFERRER_NAME`. -/
def handle_log_card (data : EData) (o : DocStepOutcome) : StepRes :=
  match o with
  | .downloadFail =>
    { nextState := STATE_UPLOAD_LOG
      msgs := [.processing "Log Card",
        .errorMsg "Failed to process Log Card. Please try again."]
      data := data, tempCreated := false, tempDeleted := false
      permDeleted := false }
  | .validationFail reason =>
    { nextState := STATE_UPLOAD_LOG
      msgs := [.processing "Log Card", .validationError reason]
      data := data, tempCreated := true, tempDeleted := true
      permDeleted := false }
  | .timeout =>
    { nextState := STATE_UPLOAD_LOG
      msgs := [.processing "Log Card",
        .errorMsg "Failed to process Log Card. Please try again."]
      data := data, tempCreated := true, tempDeleted := true
      permDeleted := false }
  | .extractOk t =>
    { nextState := STATE_REFERRER_NAME
      msgs := [.processing "Log Card", .extractedText "Log Card" t,
        .plain "Enter Referrer\x27s Name:"]
      data := PyDict.insert data "log_card" (parseColonLines t)
      tempCreated := true, tempDeleted := true, permDeleted := false }
  | .extractRaise =>
    { nextState := STATE_UPLOAD_LOG
      msgs := [.processing "Log Card",
        .errorMsg "Failed to process Log Card. Please try again."]
      data := data, tempCreated := true, tempDeleted := true
      permDeleted := false }

/-- The observable result of the final referral step. `submitted` is the
combined record handed to the submission gateway (`None` when the step
re-prompts); `submitAttempts` counts gateway calls. -/
structure FinishRes where
  nextState : Int
  msgs : List Msg
  data : EData
  submitted : Option (PyDict String)
  submitAttempts : Nat
deriving DecidableEq

/-- `TelegramController.collect_referrer_dealership` (lines 232-259) plus
`_send_to_monday`: the gateway verdict (`create_policy_item`, with its
`except` arm folded into `False`) is the abstract `submitOk` input. -/
def collect_referrer_dealership (data : EData)
    (referrerName contactNumber text : String) (submitOk : Bool) :
    FinishRes :=
  let dealership := pyStrip text
  if dealership = "" then
    { nextState := STATE_REFERRER_DEALERSHIP
      msgs := [.errorMsg "Dealership cannot be empty. Please try again."]
      data := data, submitted := none, submitAttempts := 0 }
  else
    let data2 := PyDict.insert data "referrer_info"
      [("Referrer\x27s Name", referrerName),
        ("Contact Number", contactNumber), ("Dealership", dealership)]
    if submitOk then
      { nextState := CONV_END
        msgs := [.plain "Referrer information collected successfully.",
          .completion]
        data := data2, submitted := some (combinedData data2)
        submitAttempts := 1 }
    else
      { nextState := CONV_END
        msgs := [.plain "Referrer information collected successfully.",
          .dataSaveError]
        data := data2, submitted := some (combinedData data2)
        submitAttempts := 1 }

/-- The abstract exit scenarios of `bot.py`'s `handle_id_card`
(lines 48-82): `extractDone` is the success path
(`extract_text_from_image` itself never raises); `replyRaise` is an
exception from a later awaited send. -/
inductive BotOutcome where
  | downloadFail
  | validationFail (reason : String)
  | extractDone (text : String)
  | replyRaise
deriving DecidableEq

/-- Result of `bot.py handle_id_card`: returned state and the fate of the
single `temp_id_(user).jpg` file.  The `os.remove` cleanup sits on the
success path only, before `return UPLOAD_LICENSE`. -/
structure BotStepRes where
  nextState : Int
  tempCreated : Bool
  tempRemoved : Bool
deriving DecidableEq

/-- `bot.py handle_id_card` as a step function over its exit scenario. -/
def bot_handle_id_card : BotOutcome → BotStepRes
  | .downloadFail => ⟨STATE_UPLOAD_ID, false, false⟩
  | .validationFail _ => ⟨STATE_UPLOAD_ID, true, false⟩
  | .extractDone _ => ⟨STATE_UPLOAD_LICENSE, true, true⟩
  | .replyRaise => ⟨STATE_UPLOAD_ID, true, false⟩

theorem str_data_append (a b : String) : (a ++ b).data = a.data ++ b.data := by
  cases a; cases b; rfl

theorem dataSaveError_ne_errorMsg (m : String) :
    viewText Msg.dataSaveError ≠ viewText (Msg.errorMsg m) := by
  intro he
  have h2 := congrArg String.data he
  simp only [viewText] at h2
  rw [str_data_append] at h2
  have h3 := congrArg List.head? h2
  have h4 : (some '⚠' : Option Char) = some 'S' := h3
  exact absurd h4 (by decide)

theorem dataSaveError_ne_validationError (r : String) :
    viewText Msg.dataSaveError ≠ viewText (Msg.validationError r) := by
  intro he
  have h2 := congrArg String.data he
  simp only [viewText] at h2
  rw [str_data_append] at h2
  have h3 := congrArg List.head? h2
  have h4 : (some '⚠' : Option Char) = some 'I' := h3
  exact absurd h4 (by decide)

theorem dataSaveError_ne_completion :
    viewText Msg.dataSaveError ≠ viewText Msg.completion := by decide

/-- C4: the identity-step extraction call is bounded by the hard 300-unit
timeout, and the timeout arm behaves exactly as the extraction-failure
arm: a timeout/retry message is sent, the state stays `UPLOAD_ID`, the
extracted-data dict (in particular its `id_card` slot) is unchanged, and
the `finally` cleanup deletes the temporary file while the permanent copy
is untouched. -/
theorem id_timeout_like_failure (data : EData) :
    ID_EXTRACT_TIMEOUT = 300
    ∧ (handle_id_card data .timeout).nextState = STATE_UPLOAD_ID
    ∧ (handle_id_card data .timeout).data = data
    ∧ PyDict.lookup (handle_id_card data .timeout).data "id_card"
        = PyDict.lookup data "id_card"
    ∧ (handle_id_card data .timeout).tempDeleted = true
    ∧ (handle_id_card data .timeout).permDeleted = false
    ∧ Msg.errorMsg "Processing took too long. Please try again."
        ∈ (handle_id_card data .timeout).msgs
    ∧ (handle_id_card data .timeout).nextState
        = (handle_id_card data .extractRaise).nextState
    ∧ (handle_id_card data .timeout).data
        = (handle_id_card data .extractRaise).data
    ∧ (handle_id_card data .timeout).tempDeleted
        = (handle_id_card data .extractRaise).tempDeleted := by
  refine ⟨rfl, rfl, rfl, rfl, rfl, rfl, ?_, rfl, rfl, rfl⟩
  simp [handle_id_card]

/-- Witness for C4 at the empty session. -/
theorem id_timeout_like_failure_witness :
    (handle_id_card [] DocStepOutcome.timeout).nextState = STATE_UPLOAD_ID
    ∧ (handle_id_card [] DocStepOutcome.timeout).data = [] :=
  ⟨(id_timeout_like_failure []).2.1, (id_timeout_like_failure []).2.2.1⟩

/-- C5: once the dealership field is non-empty, the step reaches the
terminal `END` state whether the gateway succeeds or fails, calls the
gateway exactly once, shows the save-error message on failure and the
completion message on success, and the save-error text differs from every
extraction-failure (`errorMsg`) and validation-failure text and from the
success text. -/
theorem submission_failure_terminal (data : EData)
    (referrerName contactNumber text : String)
    (h : pyStrip text ≠ "") :
    (collect_referrer_dealership data referrerName contactNumber text
        false).nextState = CONV_END
    ∧ (collect_referrer_dealership data referrerName contactNumber text
        true).nextState = CONV_END
    ∧ (collect_referrer_dealership data referrerName contactNumber text
        false).submitAttempts = 1
    ∧ (collect_referrer_dealership data referrerName contactNumber text
        false).msgs.getLast? = some Msg.dataSaveError
    ∧ (collect_referrer_dealership data referrerName contactNumber text
        true).msgs.getLast? = some Msg.completion
    ∧ CONV_END ≠ STATE_UPLOAD_ID ∧ CONV_END ≠ STATE_UPLOAD_LICENSE
    ∧ CONV_END ≠ STATE_UPLOAD_LOG ∧ CONV_END ≠ STATE_REFERRER_NAME
    ∧ CONV_END ≠ STATE_REFERRER_CONTACT
    ∧ CONV_END ≠ STATE_REFERRER_DEALERSHIP
    ∧ (∀ m, viewText Msg.dataSaveError ≠ viewText (Msg.errorMsg m))
    ∧ (∀ r, viewText Msg.dataSaveError ≠ viewText (Msg.validationError r))
    ∧ viewText Msg.dataSaveError ≠ viewText Msg.completion := by
  refine ⟨?_, ?_, ?_, ?_, ?_, by decide, by decide, by decide, by decide,
    by decide, by decide, dataSaveError_ne_errorMsg,
    dataSaveError_ne_validationError, dataSaveError_ne_completion⟩ <;>
    simp [collect_referrer_dealership, h]

/-- Witness for C5 at a concrete session and dealership text. -/
theorem submission_failure_terminal_witness :
    (collect_referrer_dealership [] "R" "C" "ACME" false).nextState
      = CONV_END
    ∧ (collect_referrer_dealership [] "R" "C" "ACME" false).msgs.getLast?
      = some Msg.dataSaveError :=
  ⟨(submission_failure_terminal [] "R" "C" "ACME" (by decide)).1,
    (submission_failure_terminal [] "R" "C" "ACME"
      (by decide)).2.2.2.1⟩

/-- C7 fails on the code: `bot.py handle_id_card` removes the temporary
file only on the success path; on a validation failure the file is
created and the handler returns without deleting it. -/
theorem temp_cleanup_counterexample :
    (bot_handle_id_card (.validationFail "Image is too small")).tempCreated
        = true
    ∧ (bot_handle_id_card (.validationFail "Image is too small")).tempRemoved
        = false
    ∧ (bot_handle_id_card .replyRaise).tempRemoved = false :=
  ⟨rfl, rfl, rfl⟩

/-- C7 amended: the three controller document handlers delete the
temporary file on every exit path on which it was created (the `finally`
cleanup) and never delete the permanent copy; the `bot.py` identity
handler deletes its temporary file only on the success path — on
validation failure or a later exception the file survives the step. -/
theorem temp_cleanup_amended (data : EData) (o : DocStepOutcome) :
    ((handle_id_card data o).tempCreated = true →
      (handle_id_card data o).tempDeleted = true)
    ∧ (handle_id_card data o).permDeleted = false
    ∧ ((handle_drivers_license data o).tempCreated = true →
      (handle_drivers_license data o).tempDeleted = true)
    ∧ (handle_drivers_license data o).permDeleted = false
    ∧ ((handle_log_card data o).tempCreated = true →
      (handle_log_card data o).tempDeleted = true)
    ∧ (handle_log_card data o).permDeleted = false
    ∧ (∀ t, (bot_handle_id_card (.extractDone t)).tempRemoved = true)
    ∧ (∀ r, (bot_handle_id_card (.validationFail r)).tempRemoved = false) := by
  refine ⟨?_, ?_, ?_, ?_, ?_, ?_, fun t => rfl, fun r => rfl⟩ <;>
    cases o <;>
    simp [handle_id_card, handle_drivers_license, handle_log_card] <;>
    split_ifs <;> simp

/-- Witness for the amended C7 at the timeout outcome. -/
theorem temp_cleanup_amended_witness :
    (handle_id_card [] DocStepOutcome.timeout).tempDeleted = true :=
  (temp_cleanup_amended [] DocStepOutcome.timeout).1 rfl

/-! ### C6: the two download-with-retry routines -/

/-- Outcome of one attempt of the controller downloader
(`controller/controller.py` lines 49-70): full success (temp written,
permanent copy written), failure after the temp write (`shutil.copy2`
or a later line raises), or failure before any write. -/
inductive CtrlAttempt where
  | okBoth
  | failCopy
  | failEarly
deriving DecidableEq

/-- Outcome of one attempt of the `bot.py` downloader (lines 28-39):
success, a transient `TimedOut`/`NetworkError` (the only caught classes),
or any other exception (propagates immediately). -/
inductive BotAttempt where
  | ok
  | transientFail
  | fatalFail
deriving DecidableEq

/-- Counters observed across a downloader run: attempts made, total sleep
delay inserted, and temp files written by failed attempts that nobody
deletes. -/
structure DlStats where
  attempts : Nat
  delayTotal : Nat
  orphanTemps : Nat
deriving DecidableEq

/-- `true` on the `.ok` constructor. -/
def exceptIsOk {ε α : Type} : Except ε α → Bool
  | .ok _ => true
  | .error _ => false

/-- The `for attempt in range(max_retries)` loop of
`TelegramController.download_with_retry`: each iteration runs one attempt
(identified by its index, standing for the timestamped filename pair);
an exception on the last iteration re-raises, earlier ones continue with
no sleep.  The `remaining = 0` entry models the unreachable
`raise ValueError` after the loop. -/
def controller_download_go (oracle : Nat → CtrlAttempt) :
    Nat → Nat → DlStats → Except Unit Nat × DlStats
  | _, 0, st => (.error (), st)
  | i, remaining + 1, st =>
    match oracle i with
    | .okBoth => (.ok i, ⟨st.attempts + 1, st.delayTotal, st.orphanTemps⟩)
    | .failCopy =>
      if remaining = 0 then
        (.error (), ⟨st.attempts + 1, st.delayTotal, st.orphanTemps + 1⟩)
      else
        controller_download_go oracle (i + 1) remaining
          ⟨st.attempts + 1, st.delayTotal, st.orphanTemps + 1⟩
    | .failEarly =>
      if remaining = 0 then
        (.error (), ⟨st.attempts + 1, st.delayTotal, st.orphanTemps⟩)
      else
        controller_download_go oracle (i + 1) remaining
          ⟨st.attempts + 1, st.delayTotal, st.orphanTemps⟩

/-- `TelegramController.download_with_retry` with the default
`max_retries = MAX_RETRIES = 3`. -/
def controller_download (oracle : Nat → CtrlAttempt) :
    Except Unit Nat × DlStats :=
  controller_download_go oracle 0 MAX_RETRIES ⟨0, 0, 0⟩

/-- The recursive `bot.py download_with_retry`: on a transient error with
`retry_count < MAX_RETRIES` it sleeps `RETRY_DELAY` and recurses,
otherwise it re-raises; non-transient errors re-raise immediately.
`retriesLeft` is `MAX_RETRIES - retry_count`. -/
def bot_download_go (oracle : Nat → BotAttempt) :
    Nat → Nat → DlStats → Except Unit Nat × DlStats
  | 0, i, st =>
    match oracle i with
    | .ok => (.ok i, ⟨st.attempts + 1, st.delayTotal, st.orphanTemps⟩)
    | .transientFail =>
      (.error (), ⟨st.attempts + 1, st.delayTotal, st.orphanTemps⟩)
    | .fatalFail =>
      (.error (), ⟨st.attempts + 1, st.delayTotal, st.orphanTemps⟩)
  | r + 1, i, st =>
    match oracle i with
    | .ok => (.ok i, ⟨st.attempts + 1, st.delayTotal, st.orphanTemps⟩)
    | .fatalFail =>
      (.error (), ⟨st.attempts + 1, st.delayTotal, st.orphanTemps⟩)
    | .transientFail =>
      bot_download_go oracle r (i + 1)
        ⟨st.attempts + 1, st.delayTotal + RETRY_DELAY, st.orphanTemps⟩

/-- `bot.py download_with_retry` entered with `retry_count = 0`. -/
def bot_download (oracle : Nat → BotAttempt) : Except Unit Nat × DlStats :=
  bot_download_go oracle MAX_RETRIES 0 ⟨0, 0, 0⟩

theorem ctrl_go_stats (oracle : Nat → CtrlAttempt) :
    ∀ (remaining i : Nat) (st : DlStats),
      (controller_download_go oracle i remaining st).2.attempts
          ≤ st.attempts + remaining
      ∧ (controller_download_go oracle i remaining st).2.delayTotal
          = st.delayTotal := by
  intro remaining
  induction remaining with
  | zero => intro i st; simp [controller_download_go]
  | succ r ih =>
    intro i st
    cases h : oracle i with
    | okBoth =>
      have e : controller_download_go oracle i (r + 1) st
          = (.ok i, ⟨st.attempts + 1, st.delayTotal, st.orphanTemps⟩) := by
        simp [controller_download_go, h]
      rw [e]
      exact ⟨by show st.attempts + 1 ≤ st.attempts + (r + 1); omega, rfl⟩
    | failCopy =>
      by_cases hr : r = 0
      · subst hr
        have e : controller_download_go oracle i 1 st
            = (.error (),
                ⟨st.attempts + 1, st.delayTotal, st.orphanTemps + 1⟩) := by
          simp [controller_download_go, h]
        rw [e]
        exact ⟨by show st.attempts + 1 ≤ st.attempts + 1; omega, rfl⟩
      · have e : controller_download_go oracle i (r + 1) st
            = controller_download_go oracle (i + 1) r
                ⟨st.attempts + 1, st.delayTotal, st.orphanTemps + 1⟩ := by
          simp [controller_download_go, h, hr]
        rw [e]
        obtain ⟨ha, hd⟩ := ih (i + 1)
          ⟨st.attempts + 1, st.delayTotal, st.orphanTemps + 1⟩
        have ha2 : (controller_download_go oracle (i + 1) r
            ⟨st.attempts + 1, st.delayTotal, st.orphanTemps + 1⟩).2.attempts
              ≤ st.attempts + 1 + r := ha
        have hd2 : (controller_download_go oracle (i + 1) r
            ⟨st.attempts + 1, st.delayTotal, st.orphanTemps + 1⟩).2.delayTotal
              = st.delayTotal := hd
        exact ⟨by omega, hd2⟩
    | failEarly =>
      by_cases hr : r = 0
      · subst hr
        have e : controller_download_go oracle i 1 st
            = (.error (),
                ⟨st.attempts + 1, st.delayTotal, st.orphanTemps⟩) := by
          simp [controller_download_go, h]
        rw [e]
        exact ⟨by show st.attempts + 1 ≤ st.attempts + 1; omega, rfl⟩
      · have e : controller_download_go oracle i (r + 1) st
            = controller_download_go oracle (i + 1) r
                ⟨st.attempts + 1, st.delayTotal, st.orphanTemps⟩ := by
          simp [controller_download_go, h, hr]
        rw [e]
        obtain ⟨ha, hd⟩ := ih (i + 1)
          ⟨st.attempts + 1, st.delayTotal, st.orphanTemps⟩
        have ha2 : (controller_download_go oracle (i + 1) r
            ⟨st.attempts + 1, st.delayTotal, st.orphanTemps⟩).2.attempts
              ≤ st.attempts + 1 + r := ha
        have hd2 : (controller_download_go oracle (i + 1) r
            ⟨st.attempts + 1, st.delayTotal, st.orphanTemps⟩).2.delayTotal
              = st.delayTotal := hd
        exact ⟨by omega, hd2⟩

theorem ctrl_go_all_fail (oracle : Nat → CtrlAttempt) :
    ∀ (remaining i : Nat) (st : DlStats),
      (∀ j, j < remaining → oracle (i + j) ≠ .okBoth) →
      exceptIsOk (controller_download_go oracle i remaining st).1 = false := by
  intro remaining
  induction remaining with
  | zero => intro i st _; simp [controller_download_go, exceptIsOk]
  | succ r ih =>
    intro i st h
    have h0 : oracle i ≠ .okBoth := by
      have := h 0 (Nat.succ_pos r); simpa using this
    have hrest : ∀ j, j < r → oracle (i + 1 + j) ≠ .okBoth := by
      intro j hj
      have := h (j + 1) (by omega)
      have e : i + (j + 1) = i + 1 + j := by omega
      rwa [e] at this
    cases hc : oracle i with
    | okBoth => exact absurd hc h0
    | failCopy =>
      by_cases hr : r = 0
      · subst hr; simp [controller_download_go, hc, exceptIsOk]
      · have e : controller_download_go oracle i (r + 1) st
            = controller_download_go oracle (i + 1) r
                ⟨st.attempts + 1, st.delayTotal, st.orphanTemps + 1⟩ := by
          simp [controller_download_go, hc, hr]
        rw [e]
        exact ih (i + 1) _ hrest
    | failEarly =>
      by_cases hr : r = 0
      · subst hr; simp [controller_download_go, hc, exceptIsOk]
      · have e : controller_download_go oracle i (r + 1) st
            = controller_download_go oracle (i + 1) r
                ⟨st.attempts + 1, st.delayTotal, st.orphanTemps⟩ := by
          simp [controller_download_go, hc, hr]
        rw [e]
        exact ih (i + 1) _ hrest

theorem bot_go_stats (oracle : Nat → BotAttempt) :
    ∀ (r i : Nat) (st : DlStats), ∃ k, k ≤ r
      ∧ (bot_download_go oracle r i st).2.attempts = st.attempts + k + 1
      ∧ (bot_download_go oracle r i st).2.delayTotal
          = st.delayTotal + RETRY_DELAY * k := by
  intro r
  induction r with
  | zero =>
    intro i st
    refine ⟨0, Nat.le_refl 0, ?_⟩
    cases h : oracle i <;> simp [bot_download_go, h]
  | succ r ih =>
    intro i st
    cases h : oracle i with
    | ok =>
      exact ⟨0, Nat.zero_le _, by simp [bot_download_go, h]⟩
    | fatalFail =>
      exact ⟨0, Nat.zero_le _, by simp [bot_download_go, h]⟩
    | transientFail =>
      obtain ⟨k, hk, h1, h2⟩ := ih (i + 1)
        ⟨st.attempts + 1, st.delayTotal + RETRY_DELAY, st.orphanTemps⟩
      have e : bot_download_go oracle (r + 1) i st
          = bot_download_go oracle r (i + 1)
              ⟨st.attempts + 1, st.delayTotal + RETRY_DELAY,
                st.orphanTemps⟩ := by
        simp [bot_download_go, h]
      have h1b : (bot_download_go oracle r (i + 1)
          ⟨st.attempts + 1, st.delayTotal + RETRY_DELAY,
            st.orphanTemps⟩).2.attempts = st.attempts + 1 + k + 1 := h1
      have h2b : (bot_download_go oracle r (i + 1)
          ⟨st.attempts + 1, st.delayTotal + RETRY_DELAY,
            st.orphanTemps⟩).2.delayTotal
            = st.delayTotal + RETRY_DELAY + RETRY_DELAY * k := h2
      refine ⟨k + 1, by omega, ?_, ?_⟩
      · rw [e]; omega
      · rw [e]
        simp only [RETRY_DELAY] at h2b ⊢
        omega

theorem bot_go_all_transient (oracle : Nat → BotAttempt) :
    ∀ (r i : Nat) (st : DlStats),
      (∀ j, oracle j = .transientFail) →
      exceptIsOk (bot_download_go oracle r i st).1 = false := by
  intro r
  induction r with
  | zero => intro i st h; simp [bot_download_go, h i, exceptIsOk]
  | succ r ih =>
    intro i st h
    have e : bot_download_go oracle (r + 1) i st
        = bot_download_go oracle r (i + 1)
            ⟨st.attempts + 1, st.delayTotal + RETRY_DELAY,
              st.orphanTemps⟩ := by
      simp [bot_download_go, h i]
    rw [e]
    exact ih (i + 1) _ h

/-- C6 fails on the code: with every attempt failing transiently, the
`bot.py` downloader makes 4 attempts (one initial call plus
`MAX_RETRIES = 3` retries), exceeding the claimed bound of 3; and the
controller downloader makes its 3 attempts with zero delay between them,
against the claimed fixed delay of 2; a run whose attempts all fail after
the temp write leaves 3 orphaned temp files behind while raising. -/
theorem download_retry_counterexample :
    (bot_download (fun _ => .transientFail)).2.attempts = 4
    ∧ ¬ ((bot_download (fun _ => .transientFail)).2.attempts ≤ MAX_RETRIES)
    ∧ (controller_download (fun _ => .failEarly)).2.attempts = 3
    ∧ (controller_download (fun _ => .failEarly)).2.delayTotal = 0
    ∧ (controller_download (fun _ => .failCopy)).2.orphanTemps = 3
    ∧ exceptIsOk (controller_download (fun _ => .failCopy)).1 = false := by
  refine ⟨rfl, by decide, rfl, rfl, rfl, rfl⟩

/-- C6 amended: the controller downloader makes at most 3 attempts with
no delay between them and re-raises after the last failed attempt (a
temp file written by a failed attempt is not cleaned up by the
downloader); the `bot.py` downloader makes at most 4 attempts (one
initial plus up to 3 retries), sleeping `RETRY_DELAY = 2` time-units
before each retry (total delay is 2 per extra attempt), retries only
transient failures, re-raises after exhausting retries, and a run that
fails twice then succeeds on the third controller attempt returns that
attempt's staged paths. -/
theorem download_retry_amended (oracle : Nat → CtrlAttempt)
    (oracleB : Nat → BotAttempt) :
    (controller_download oracle).2.attempts ≤ MAX_RETRIES
    ∧ (controller_download oracle).2.delayTotal = 0
    ∧ ((∀ j, j < MAX_RETRIES → oracle j ≠ .okBoth) →
        exceptIsOk (controller_download oracle).1 = false)
    ∧ (∃ k, k ≤ MAX_RETRIES
        ∧ (bot_download oracleB).2.attempts = k + 1
        ∧ (bot_download oracleB).2.delayTotal = RETRY_DELAY * k)
    ∧ (bot_download oracleB).2.attempts ≤ MAX_RETRIES + 1
    ∧ ((∀ j, oracleB j = .transientFail) →
        exceptIsOk (bot_download oracleB).1 = false)
    ∧ (oracle 0 ≠ .okBoth → oracle 1 ≠ .okBoth → oracle 2 = .okBoth →
        (controller_download oracle).1 = .ok 2
        ∧ (controller_download oracle).2.attempts = 3) := by
  obtain ⟨k, hk, h1, h2⟩ := bot_go_stats oracleB MAX_RETRIES 0 ⟨0, 0, 0⟩
  have h1b : (bot_download oracleB).2.attempts = k + 1 := by
    simpa using h1
  have h2b : (bot_download oracleB).2.delayTotal = RETRY_DELAY * k := by
    simpa using h2
  refine ⟨(ctrl_go_stats oracle MAX_RETRIES 0 ⟨0, 0, 0⟩).1,
    (ctrl_go_stats oracle MAX_RETRIES 0 ⟨0, 0, 0⟩).2,
    fun h => ctrl_go_all_fail oracle MAX_RETRIES 0 ⟨0, 0, 0⟩
      (fun j hj => by simpa using h j hj),
    ⟨k, hk, h1b, h2b⟩, by omega,
    fun h => bot_go_all_transient oracleB MAX_RETRIES 0 ⟨0, 0, 0⟩ h, ?_⟩
  intro hn0 hn1 hok2
  refine ⟨?_, ?_⟩ <;>
  · cases hc0 : oracle 0 <;> cases hc1 : oracle 1 <;>
      first
      | exact absurd hc0 hn0
      | exact absurd hc1 hn1
      | simp [controller_download, MAX_RETRIES, controller_download_go,
          hc0, hc1, hok2]

/-- Witness for the amended C6 at concrete attempt oracles. -/
theorem download_retry_amended_witness :
    exceptIsOk (controller_download (fun _ => CtrlAttempt.failEarly)).1
        = false
    ∧ (controller_download
        (fun j => if j = 2 then CtrlAttempt.okBoth
          else CtrlAttempt.failEarly)).1 = Except.ok 2 := by
  constructor
  · exact (download_retry_amended (fun _ => .failEarly)
      (fun _ => .ok)).2.2.1
      (fun j hj h => CtrlAttempt.noConfusion h)
  · exact ((download_retry_amended
      (fun j => if j = 2 then .okBoth else .failEarly)
      (fun _ => .ok)).2.2.2.2.2.2 (by decide) (by decide) (by decide)).1

/-! ### C8: the model singleton and per-call processor loading -/

/-- The class-level state of `ModelSingleton`
(`model/model_singleton.py`): the cached `_instance` (identified by a
serial number), how many times `_load_model` ran, and the next serial. -/
structure MSState where
  inst : Option Nat
  loads : Nat
  nextId : Nat
deriving DecidableEq

/-- `ModelSingleton.get_instance` (lines 14-18): construct the instance
(whose `__init__` runs `_load_model` once) only when none is cached,
else return the cached one unchanged. -/
def get_instance (s : MSState) : Nat × MSState :=
  match s.inst with
  | some i => (i, s)
  | none =>
    (s.nextId, ⟨some s.nextId, s.loads + 1, s.nextId + 1⟩)

/-- The abstract exit scenarios of one `LicenseProcessor.process_image`
call (`model/license_processor.py` lines 25-91): image verification
failure, `load_model` returning `(None, None)`, a generation error, or a
decoded text. -/
inductive ProcOutcome where
  | verifyFail
  | loadFail
  | genRaise
  | genOk (decoded : String)
deriving DecidableEq

/-- Result pair and number of `load_model` weight-load invocations of one
`LicenseProcessor.process_image` call: `self.load_model()` runs afresh on
every call that passes image verification, and `self.cleanup()` releases
the loaded model in the `finally` block before returning. -/
def license_process_image (o : ProcOutcome) : (String × String) × Nat :=
  match o with
  | .verifyFail => (("Image verification failed", "Image verification failed"), 0)
  | .loadFail => (("Model loading failed", "Model loading failed"), 1)
  | .genRaise => (("Text generation failed", "Text generation failed"), 1)
  | .genOk t => ((license_format_text t, license_format_text t), 1)

/-- Total weight loads across a sequence of `LicenseProcessor.process_image`
calls. -/
def license_loads (os : List ProcOutcome) : Nat :=
  (os.map (fun o => (license_process_image o).2)).sum

/-- Weight-load count of one `IDCardProcessor.process_image` call
(`model/id_card_processor.py` line 31): `self.load_model()` runs afresh
on every call that passes image verification, and `cleanup` releases the
model in the `finally` block. -/
def idcard_loadCount : ProcOutcome → Nat
  | .verifyFail => 0
  | .loadFail => 1
  | .genRaise => 1
  | .genOk _ => 1

/-- Total weight loads across a sequence of `IDCardProcessor.process_image`
calls. -/
def idcard_loads (os : List ProcOutcome) : Nat :=
  (os.map idcard_loadCount).sum

/-- The exit scenarios of `LogCardProcessor.process_image`
(`model/log_card_processor.py` lines 20-74): verification failure, or the
post-verification block.  That block never calls `load_model`:
`self.processor` and `self.model` stay `None` from
`BaseDocumentProcessor.__init__`, so invoking `self.processor(...)`
raises and the generic generation `except` returns its sentinel. -/
inductive LogProcOutcome where
  | verifyFail
  | run
deriving DecidableEq

/-- `LogCardProcessor.process_image`: result text and weight-load count —
zero loads on every path. -/
def log_card_process_image : LogProcOutcome → String × Nat
  | .verifyFail => ("Image verification failed", 0)
  | .run => ("Text generation failed", 0)

/-- C8 fails on the code: two successful extraction calls load the model
weights twice — the processors never consult `ModelSingleton`, so
extraction re-loads weights on every call instead of sharing the
singleton's cached instance. -/
theorem singleton_shared_counterexample :
    license_loads [.genOk "Name: A", .genOk "Name: A"] = 2
    ∧ ¬ (license_loads [.genOk "Name: A", .genOk "Name: A"] ≤ 1) := by
  refine ⟨rfl, by decide⟩

/-- C8 amended: `ModelSingleton.get_instance` is idempotent — a second
call returns the same instance and the same class state, with no
additional weight load — but no document processor consults the
singleton: a `LicenseProcessor` or `IDCardProcessor` `process_image`
call that passes image verification performs its own weight load via
`load_model` (released again by `cleanup`), so their load counts equal
the number of verification-passing calls, while `LogCardProcessor`
never calls `load_model` at all — its processor and model stay `None`,
every post-verification run fails with the generation sentinel and
zero loads.  In no case does extraction share cached singleton
weights. -/
theorem singleton_amended (s : MSState) (os : List ProcOutcome) :
    (get_instance (get_instance s).2).1 = (get_instance s).1
    ∧ (get_instance (get_instance s).2).2 = (get_instance s).2
    ∧ (get_instance (get_instance s).2).2.loads = (get_instance s).2.loads
    ∧ license_loads os
        = (os.filter (fun o => o != .verifyFail)).length
    ∧ idcard_loads os
        = (os.filter (fun o => o != .verifyFail)).length
    ∧ (∀ o : LogProcOutcome, (log_card_process_image o).2 = 0)
    ∧ (log_card_process_image .run).1 = "Text generation failed" := by
  refine ⟨?_, ?_, ?_, ?_, ?_, ?_, rfl⟩
  · cases h : s.inst <;> simp [get_instance, h]
  · cases h : s.inst <;> simp [get_instance, h]
  · cases h : s.inst <;> simp [get_instance, h]
  · induction os with
    | nil => rfl
    | cons o rest ih =>
      simp only [license_loads, List.map_cons, List.sum_cons] at ih ⊢
      rw [ih]
      cases o <;>
        simp [license_process_image, List.filter_cons, bne_iff_ne] <;>
        omega
  · induction os with
    | nil => rfl
    | cons o rest ih =>
      simp only [idcard_loads, List.map_cons, List.sum_cons] at ih ⊢
      rw [ih]
      cases o <;>
        simp [idcard_loadCount, List.filter_cons, bne_iff_ne] <;>
        omega
  · intro o; cases o <;> rfl

/-- Witness for the amended C8 at the empty singleton state and a
two-call trace. -/
theorem singleton_amended_witness :
    (get_instance (get_instance ⟨none, 0, 0⟩).2).1
        = (get_instance ⟨none, 0, 0⟩).1
    ∧ license_loads [ProcOutcome.genOk "x", ProcOutcome.verifyFail]
        = ([ProcOutcome.genOk "x", ProcOutcome.verifyFail].filter
            (fun o => o != ProcOutcome.verifyFail)).length
    ∧ (log_card_process_image LogProcOutcome.run).2 = 0 :=
  ⟨(singleton_amended ⟨none, 0, 0⟩ []).1,
    (singleton_amended ⟨none, 0, 0⟩
      [ProcOutcome.genOk "x", ProcOutcome.verifyFail]).2.2.2.1,
    (singleton_amended ⟨none, 0, 0⟩ []).2.2.2.2.2.1 LogProcOutcome.run⟩

/-! ### C9: identity extraction and the OCR fallback -/

/-- The prompt-echo delimiter searched by `IDCardProcessor.format_text`
(`model/id_card_processor.py` line 90). -/
def idcard_marker : String := "Only output the extracted information"

/-- Index of the first line containing the marker, if any. -/
def findMarkerIdx : List String → Option Nat
  | [] => none
  | l :: rest =>
    if strContains l idcard_marker then some 0
    else (findMarkerIdx rest).map (· + 1)

/-- `IDCardProcessor.format_text` (lines 81-105): data starts two lines
after the marker line; stripped non-empty lines from there are joined,
otherwise the result is the "No data found" sentinel. -/
def idcard_format_text (t : String) : String :=
  let lines := pySplitLines t
  match findMarkerIdx lines with
  | some i =>
    if i + 2 < lines.length then
      pyJoin "\n"
        (((lines.drop (i + 2)).map pyStrip).filter (fun l => l ≠ ""))
    else "No data found"
  | none => "No data found"

/-- `IDCardProcessor.process_image` (lines 20-79): the same exit
scenarios as the license processor; no OCR is involved on any path. -/
def idcard_process_image : ProcOutcome → String × String
  | .verifyFail => ("Image verification failed", "Image verification failed")
  | .loadFail => ("Model loading failed", "Model loading failed")
  | .genRaise => ("Text generation failed", "Text generation failed")
  | .genOk t => (idcard_format_text t, idcard_format_text t)

/-- Python `s.lower()` (ASCII). -/
def pyLower (s : String) : String :=
  ⟨s.data.map Char.toLower⟩

/-- `all(field in vlm_result.lower() for field in [...])` from
`model.py` line 189. -/
def requiredFieldsIn (s : String) : Bool :=
  strContains (pyLower s) "name:" && strContains (pyLower s) "race:"
    && strContains (pyLower s) "date of birth:"
    && strContains (pyLower s) "sex:"

/-- The four slots filled by `format_extracted_text`
(`model.py` lines 33-93), initialised to empty strings. -/
structure IdOcrFields where
  name : String
  race : String
  dob : String
  sex : String
deriving DecidableEq

/-- `any(keyword in next_line.upper() for keyword in
['RACE', 'DATE', 'SEX'])`. -/
def ocrKwAfterName (next : String) : Bool :=
  strContains (pyUpper next) "RACE" || strContains (pyUpper next) "DATE"
    || strContains (pyUpper next) "SEX"

/-- `any(keyword in next_line.upper() for keyword in
['NAME', 'DATE', 'SEX'])`. -/
def ocrKwAfterRace (next : String) : Bool :=
  strContains (pyUpper next) "NAME" || strContains (pyUpper next) "DATE"
    || strContains (pyUpper next) "SEX"

/-- One iteration of the `for i, line in enumerate(lines)` loop of
`format_extracted_text`, with `rest` the lines after position `i` (so
`i + 1 < len(lines)` is `rest ≠ []`).  Mirrors the `if`/`elif` chain:
a "Name" line assigns the joined name parts unconditionally (possibly
the empty join); the other branches assign only under their guards. -/
def ocrFmtStep (st : IdOcrFields) (line : String) (rest : List String) :
    IdOcrFields :=
  if strContains line "Name" then
    match rest with
    | [] => st
    | next :: rest2 =>
      let nameParts : List String :=
        if next ≠ "" ∧ ocrKwAfterName next = false then
          stripSpaceDots next ::
            (match rest2 with
             | l2 :: _ =>
               if strContains l2 "(" && strContains l2 ")" then [pyStrip l2]
               else []
             | [] => [])
        else []
      { st with name := pyJoin " " nameParts }
  else if strContains line "Race" then
    match rest with
    | [] => st
    | next :: _ =>
      if next ≠ "" ∧ ocrKwAfterRace next = false then
        { st with race := pyStrip next }
      else st
  else if strContains line "Date of birth" || strContains line "DOB" then
    match rest with
    | [] => st
    | next :: _ =>
      let dob := pyStrip (pyReplace (pyReplace (pyReplace next "_" "")
        "LJ" "") "Mw" "")
      if dob ≠ "" ∧ 8 ≤ dob.data.length then { st with dob := dob } else st
  else if strContains line "Sex" then
    match rest with
    | [] => st
    | next :: _ =>
      let up := pyUpper next
      if strContains up "M" then { st with sex := "M" }
      else if strContains up "F" then { st with sex := "F" }
      else st
  else st

/-- The enumerate loop over the cleaned lines. -/
def ocrFmtLoop (st : IdOcrFields) : List String → IdOcrFields
  | [] => st
  | l :: rest => ocrFmtLoop (ocrFmtStep st l rest) rest

/-- `[line.strip() for line in text.split('\x5cn') if line.strip()]`. -/
def cleanLines (t : String) : List String :=
  ((pySplitLines t).map pyStrip).filter (fun l => l ≠ "")

/-- The output template of `format_extracted_text` (lines 83-88). -/
def idOcrRender (f : IdOcrFields) : String :=
  "Name: " ++ f.name ++ "\nRace: " ++ f.race ++ "\nDate of birth: "
    ++ f.dob ++ "\nSex: " ++ f.sex

/-- `format_extracted_text` (`model.py` lines 33-93): the heuristic
line-proximity parser (keyword line followed by value line) over the
cleaned OCR text, rendered in the fixed four-label template.  The
function body raises nothing, so the `except` fallback is dead. -/
def format_extracted_text (t : String) : String :=
  idOcrRender (ocrFmtLoop ⟨"", "", "", ""⟩ (cleanLines t))

/-- OCR outcome: the raw recognised text, or an exception from the OCR
call (`pytesseract`). -/
inductive OcrRes where
  | ok (text : String)
  | raised
deriving DecidableEq

/-- VLM outcome: the decoded outputs of `batch_decode`, or an exception
anywhere in the VLM block (model/processor construction — "no model
runtime" — device placement, generation or decoding). -/
inductive VlmRes where
  | ok (decoded : List String)
  | raised
deriving DecidableEq

/-- `extract_text_from_image` (`model.py` lines 108-214) over abstract
environment outcomes: whether the image opens, whether `preprocess_image`
returns an enhanced image (else OCR runs on the original), the OCR
result on each image, and the VLM result.  Returns the
`(ocr_text, vlm_result)` pair of the source. -/
def extract_text_from_image (imgOk : Bool) (preOk : Bool)
    (ocrPre ocrOrig : OcrRes) (vlm : VlmRes) : String × String :=
  if imgOk = false then
    ("Image processing failed", "Image processing failed")
  else
    let ocrText :=
      match (if preOk then ocrPre else ocrOrig) with
      | .ok t => format_extracted_text t
      | .raised => "OCR processing failed"
    let vlmResult :=
      match vlm with
      | .raised => ocrText
      | .ok decoded =>
        match decoded with
        | [] => ocrText
        | d0 :: _ =>
          if 0 < (pyStrip d0).data.length then
            if requiredFieldsIn d0 then d0 else ocrText
          else ocrText
    (ocrText, vlmResult)

/-- C9 fails on the code for the processor-class identity extractor used
by the controller pipeline: when `load_model` yields no model ("no model
runtime") or generation raises, `IDCardProcessor.process_image` returns
only an error sentinel — no OCR pass runs and no field is recovered. -/
theorem ocr_fallback_counterexample :
    idcard_process_image .loadFail
        = ("Model loading failed", "Model loading failed")
    ∧ idcard_process_image .genRaise
        = ("Text generation failed", "Text generation failed")
    ∧ strContains (idcard_process_image .loadFail).1 "Name:" = false
    ∧ strContains (idcard_process_image .loadFail).1 "Race:" = false := by
  refine ⟨rfl, rfl, by decide, by decide⟩

/-- C9 amended: the standalone identity extraction function
`extract_text_from_image` (used by the `bot.py` pipeline) does fall back
to the parsed OCR output: when the VLM block raises — including when no
model runtime can be constructed — or decodes nothing useful or misses
required fields, its result is the line-proximity-parsed render of the
OCR text of the preprocessed (contrast-enhanced, binarised) image; the
class-based `IDCardProcessor` used by the controller pipeline instead
returns a bare error sentinel with no OCR fallback. -/
theorem ocr_fallback_amended (raw d : String) (orig : OcrRes)
    (hmiss : requiredFieldsIn d = false) :
    (extract_text_from_image true true (.ok raw) orig .raised).2
        = idOcrRender (ocrFmtLoop ⟨"", "", "", ""⟩ (cleanLines raw))
    ∧ (extract_text_from_image true false orig (.ok raw) .raised).2
        = format_extracted_text raw
    ∧ (extract_text_from_image true true (.ok raw) orig (.ok [])).2
        = format_extracted_text raw
    ∧ (extract_text_from_image true true (.ok raw) orig (.ok [d])).2
        = format_extracted_text raw
    ∧ (extract_text_from_image true true (.ok raw) orig .raised).1
        = format_extracted_text raw
    ∧ idcard_process_image .loadFail
        = ("Model loading failed", "Model loading failed") := by
  refine ⟨rfl, rfl, rfl, ?_, rfl, rfl⟩
  simp only [extract_text_from_image]
  by_cases hp : 0 < (pyStrip d).data.length <;> simp [hp, hmiss]

/-- Witness for the amended C9 at a concrete OCR text and a VLM output
missing the required labels. -/
theorem ocr_fallback_amended_witness :
    (extract_text_from_image true true (.ok "Name\nJohn Tan") OcrRes.raised
        (.ok ["hello"])).2 = format_extracted_text "Name\nJohn Tan" :=
  (ocr_fallback_amended "Name\nJohn Tan" "hello" OcrRes.raised
    (by decide)).2.2.2.1

/-! ### C10: `validate_image` -/

/-- The filesystem/image facts `validate_image` observes about a path:
either opening the image raises (missing, unreadable or corrupt file —
or a later `os.path.getsize` error), or it opens with the given pixel
dimensions and byte size. -/
inductive ImgFile where
  | unreadable (err : String)
  | readable (w h fsize : Nat)
deriving DecidableEq

/-- `validate_image` (`model.py` lines 95-106): total over the observed
facts — every exception is caught and converted to
`(False, "Invalid image: ...")`. -/
def validate_image : ImgFile → Bool × String
  | .unreadable e => (false, "Invalid image: " ++ e)
  | .readable w h fsize =>
    if w < 100 ∨ h < 100 then (false, "Image is too small")
    else if fsize < 1024 then (false, "Image file is too small")
    else (true, "Image is valid")

/-- C10: `validate_image` is total (a function of the observed facts,
never raising), succeeds exactly when the image opens with both
dimensions at least 100 and at least 1024 bytes, always returns a
non-empty reason, and on an open/read error the reason begins with
"Invalid image". -/
theorem validate_image_total (f : ImgFile) :
    ((validate_image f).1 = true ↔
      ∃ w h fsize, f = .readable w h fsize
        ∧ 100 ≤ w ∧ 100 ≤ h ∧ 1024 ≤ fsize)
    ∧ (validate_image f).2 ≠ ""
    ∧ (∀ e, f = .unreadable e →
        ∃ suffix, (validate_image f).2 = "Invalid image" ++ suffix) := by
  cases f with
  | unreadable e =>
    refine ⟨by simp [validate_image], ?_, ?_⟩
    · intro he
      have h2 := congrArg String.data he
      rw [validate_image, str_data_append] at h2
      exact absurd (congrArg List.length h2) (by simp)
    · intro e2 he2
      obtain rfl : e = e2 := by
        cases he2
        rfl
      refine ⟨": " ++ e, ?_⟩
      cases e with
      | mk l => rfl
  | readable w h fsize =>
    by_cases h1 : w < 100 ∨ h < 100
    · refine ⟨?_, by simp [validate_image, h1], by intro e he; cases he⟩
      simp only [validate_image, if_pos h1]
      constructor
      · intro hfalse; cases hfalse
      · rintro ⟨w2, h2, f2, heq, hw, hh, hf⟩
        injection heq with e1 e2 e3
        omega
    · by_cases h2 : fsize < 1024
      · refine ⟨?_, by simp [validate_image, h1, h2],
          by intro e he; cases he⟩
        simp only [validate_image, if_neg h1, if_pos h2]
        constructor
        · intro hfalse; cases hfalse
        · rintro ⟨w2, h3, f2, heq, hw, hh, hf⟩
          injection heq with e1 e2 e3
          omega
      · refine ⟨?_, by simp [validate_image, h1, h2],
          by intro e he; cases he⟩
        simp only [validate_image, if_neg h1, if_neg h2]
        constructor
        · intro _
          exact ⟨w, h, fsize, rfl, by omega, by omega, by omega⟩
        · intro _; trivial

/-- Witness for C10 at a concrete unreadable file and a concrete valid
image. -/
theorem validate_image_total_witness :
    (∃ suffix,
      (validate_image (.unreadable "file not found")).2
        = "Invalid image" ++ suffix)
    ∧ ((validate_image (.readable 200 200 5000)).1 = true ↔
        ∃ w h fsize, ImgFile.readable 200 200 5000 = .readable w h fsize
          ∧ 100 ≤ w ∧ 100 ≤ h ∧ 1024 ≤ fsize) :=
  ⟨(validate_image_total (.unreadable "file not found")).2.2
      "file not found" rfl,
    (validate_image_total (.readable 200 200 5000)).1⟩
